import Mathlib

/-!
Verification of the ptrcmp analyzer core (src/main.go) and its variant
pipeline (src/unnamed/part_001) against the natural-language specification.

The embedding models Go static types as the analyzer observes them through
the go/types API (type assertions on *types.Pointer / *types.Basic, the
Underlying and Elem methods, and String for message formatting), expressions
as a typed AST whose nodes carry their resolved static type (the TypesInfo
lookup, none when unresolved), and the inspector.Preorder walk over
BinaryExpr nodes with the append-only pass.Report accumulation.
-/

namespace Ptrcmp

/-- Go types as seen by the analyzer through go/types: basic (primitive
scalar) types, named (defined) types with their underlying representation,
pointers, and the composite kinds (struct, array, slice, map, interface,
function, channel). -/
inductive GoType where
  | basic (name : String)
  | named (name : String) (underTy : GoType)
  | pointer (elem : GoType)
  | structT
  | arrayT (len : Nat) (elem : GoType)
  | sliceT (elem : GoType)
  | mapT (key val : GoType)
  | interfaceT
  | funcT
  | chanT (elem : GoType)
deriving DecidableEq

/-- The go/types Underlying method: a named type resolves to its underlying
representation (which go/types guarantees is itself never a named type,
hence the full resolution); every other type is its own underlying type. -/
def GoType.underlying : GoType → GoType
  | .named _ u => u.underlying
  | .basic n => .basic n
  | .pointer e => .pointer e
  | .structT => .structT
  | .arrayT n e => .arrayT n e
  | .sliceT e => .sliceT e
  | .mapT k v => .mapT k v
  | .interfaceT => .interfaceT
  | .funcT => .funcT
  | .chanT e => .chanT e

/-- The go/types String method, used by fmt.Sprintf %v in the diagnostic
message: a basic type prints its name, a named type its (qualified) name,
a pointer a star before its element, and so on. -/
def GoType.typeString : GoType → String
  | .basic n => n
  | .named n _ => n
  | .pointer e => "*" ++ e.typeString
  | .structT => "struct\x7b\x7d"
  | .arrayT n e => "[" ++ toString n ++ "]" ++ e.typeString
  | .sliceT e => "[]" ++ e.typeString
  | .mapT k v => "map[" ++ k.typeString ++ "]" ++ v.typeString
  | .interfaceT => "interface\x7b\x7d"
  | .funcT => "func()"
  | .chanT e => "chan " ++ e.typeString

/-- The Go binary operators (go/token): the six relational and equality
operators matched by the analyzer's switch, and all the remaining binary
operators (arithmetic, bitwise, shifts, logical). -/
inductive BinOp where
  | eql | neq | lss | gtr | leq | geq
  | add | sub | mul | quo | rem
  | andB | orB | xorB | shl | shr | andNot
  | land | lor
deriving DecidableEq

/-- Expressions of a compilation unit: a binary expression node with its
source position, resolved static type (none when the type checker could not
resolve it), operator and two operands; or any other expression node
(identifier, literal, unary, call, ...), abstracted as an atom with its
position and resolved static type. -/
inductive Expr where
  | binary (pos : Nat) (ty : Option GoType) (op : BinOp) (x y : Expr)
  | atom (pos : Nat) (ty : Option GoType)
deriving DecidableEq

/-- The pass.TypesInfo.TypeOf lookup: the resolved static type carried by
the node, none when type information is missing. -/
def Expr.typeOf : Expr → Option GoType
  | .binary _ t _ _ _ => t
  | .atom _ t => t

/-- The Pos method of an AST node. -/
def Expr.pos : Expr → Nat
  | .binary p _ _ _ _ => p
  | .atom p _ => p

/-- isPointerType from src/main.go: look up the expression's static type;
nil means false; otherwise a direct type assertion on *types.Pointer. -/
def isPointerType (e : Expr) : Bool :=
  match e.typeOf with
  | none => false
  | some (.pointer _) => true
  | some _ => false

/-- getUnderlyingType from src/main.go: look up the expression's static
type (nil propagates); a pointer yields its element type, anything else is
returned unchanged. -/
def getUnderlyingType (e : Expr) : Option GoType :=
  match e.typeOf with
  | none => none
  | some (.pointer elem) => some elem
  | some t => some t

/-- isBasicType from src/main.go: nil is not basic; otherwise a type
assertion on *types.Basic applied to t.Underlying(). -/
def isBasicType : Option GoType → Bool
  | none => false
  | some t =>
    match t.underlying with
    | .basic _ => true
    | _ => false

/-- An analysis.Diagnostic: a source position and a message. -/
structure Diagnostic where
  pos : Nat
  message : String
deriving DecidableEq

/-- fmt.Sprintf %v applied to a possibly-nil types.Type value. -/
def typeValueString : Option GoType → String
  | none => "<nil>"
  | some t => t.typeString

/-- The body of the inspector callback in run (src/main.go lines 130-153):
on a binary expression whose operator is one of the six comparison
operators, when both operands are pointer-typed and both pointee types are
basic, report one diagnostic at the binary expression's position with the
fixed message; in every other case report nothing. -/
def checkBinary : Expr → List Diagnostic
  | .atom _ _ => []
  | .binary p _ op x y =>
    match op with
    | .eql | .neq | .lss | .gtr | .leq | .geq =>
      if isPointerType x && isPointerType y then
        let leftType := getUnderlyingType x
        let rightType := getUnderlyingType y
        if isBasicType leftType && isBasicType rightType then
          [{ pos := p,
             message := "comparing pointers to basic types: " ++
               typeValueString leftType ++ " and " ++ typeValueString rightType }]
        else []
      else []
    | _ => []

/-- The binary-expression nodes of an expression tree in preorder
(depth-first, node before children, left operand before right), as
inspector.Preorder visits them with the BinaryExpr node filter. -/
def Expr.binaries : Expr → List Expr
  | .binary p t op x y => .binary p t op x y :: (x.binaries ++ y.binaries)
  | .atom _ _ => []

/-- The preorder stream of binary-expression nodes of a whole compilation
unit (a list of top-level expressions in source order). -/
def collectBinaries : List Expr → List Expr
  | [] => []
  | e :: rest => e.binaries ++ collectBinaries rest

/-- The pass.Report accumulation of parseDir: each reported diagnostic is
appended to the results list, which is threaded through the whole walk. -/
def scanFrom : List Expr → List Diagnostic → List Diagnostic
  | [], acc => acc
  | n :: ns, acc => scanFrom ns (acc ++ checkBinary n)

/-- The run analyzer entry point (src/main.go): walk every binary
expression of the unit in preorder, accumulate the reported diagnostics,
and return a nil error on every path. -/
def run (unit : List Expr) : List Diagnostic × Option String :=
  (scanFrom (collectBinaries unit) [], none)

/-- isBasicType2 from src/unnamed/part_001: identical body to isBasicType
of src/main.go. -/
def isBasicType2 : Option GoType → Bool
  | none => false
  | some t =>
    match t.underlying with
    | .basic _ => true
    | _ => false

/-- Visit from src/unnamed/part_001: the same per-node check as the main
pipeline, dispatching to isBasicType2. -/
def Visit : Expr → List Diagnostic
  | .atom _ _ => []
  | .binary p _ op x y =>
    match op with
    | .eql | .neq | .lss | .gtr | .leq | .geq =>
      if isPointerType x && isPointerType y then
        let leftType := getUnderlyingType x
        let rightType := getUnderlyingType y
        if isBasicType2 leftType && isBasicType2 rightType then
          [{ pos := p,
             message := "comparing pointers to basic types: " ++
               typeValueString leftType ++ " and " ++ typeValueString rightType }]
        else []
      else []
    | _ => []

/-- The diagnostic accumulation of the part_001 pipeline. -/
def scanVisit : List Expr → List Diagnostic → List Diagnostic
  | [], acc => acc
  | n :: ns, acc => scanVisit ns (acc ++ Visit n)

/-- The run entry point of src/unnamed/part_001: Preorder over BinaryExpr
nodes dispatching each node to Visit, returning a nil error. -/
def runVariant (unit : List Expr) : List Diagnostic × Option String :=
  (scanVisit (collectBinaries unit) [], none)

/-- The spec's classification of a pointee type: Basic when the underlying
representation is a primitive scalar, Composite otherwise. -/
inductive TypeKind where
  | Basic | Composite
deriving DecidableEq

/-- Classification of a resolved type, per the spec's Type Classifier:
Basic iff the underlying representation is a primitive scalar kind. -/
def classify (t : GoType) : TypeKind :=
  match t.underlying with
  | .basic _ => .Basic
  | _ => .Composite

/-- The six relational and equality operators matched by the analyzer. -/
def comparisonOps : List BinOp :=
  [BinOp.eql, BinOp.neq, BinOp.lss, BinOp.gtr, BinOp.leq, BinOp.geq]

theorem isPointerType_of_pointer (e : Expr) (t : GoType)
    (h : e.typeOf = some (GoType.pointer t)) : isPointerType e = true := by
  simp [isPointerType, h]

theorem getUnderlyingType_of_pointer (e : Expr) (t : GoType)
    (h : e.typeOf = some (GoType.pointer t)) : getUnderlyingType e = some t := by
  simp [getUnderlyingType, h]

theorem isBasicType_of_classify_Basic (t : GoType)
    (h : classify t = TypeKind.Basic) : isBasicType (some t) = true := by
  unfold classify at h
  unfold isBasicType
  cases ht : t.underlying <;> rw [ht] at h <;> simp_all

theorem isBasicType_of_classify_Composite (t : GoType)
    (h : classify t = TypeKind.Composite) : isBasicType (some t) = false := by
  unfold classify at h
  unfold isBasicType
  cases ht : t.underlying <;> rw [ht] at h <;> simp_all

theorem isPointerType_false_of_nonpointer (e : Expr) (t : GoType)
    (h : e.typeOf = some t) (hnp : ∀ u, t ≠ GoType.pointer u) :
    isPointerType e = false := by
  unfold isPointerType
  rw [h]
  cases t <;> simp_all

theorem checkBinary_of_not_pointer_pair (p : Nat) (ty : Option GoType)
    (op : BinOp) (x y : Expr)
    (h : isPointerType x = false ∨ isPointerType y = false) :
    checkBinary (Expr.binary p ty op x y) = [] := by
  cases op <;> simp [checkBinary] <;> rcases h with h | h <;> simp [h]

theorem checkBinary_comparison (p : Nat) (ty : Option GoType) (op : BinOp)
    (x y : Expr) (hop : op ∈ comparisonOps) :
    checkBinary (Expr.binary p ty op x y) =
      if isPointerType x && isPointerType y then
        if isBasicType (getUnderlyingType x) && isBasicType (getUnderlyingType y) then
          [{ pos := p,
             message := "comparing pointers to basic types: " ++
               typeValueString (getUnderlyingType x) ++ " and " ++
               typeValueString (getUnderlyingType y) }]
        else []
      else [] := by
  simp only [comparisonOps, List.mem_cons, List.not_mem_nil, or_false] at hop
  rcases hop with rfl | rfl | rfl | rfl | rfl | rfl <;> rfl

theorem checkBinary_not_comparison (p : Nat) (ty : Option GoType) (op : BinOp)
    (x y : Expr) (hop : op ∉ comparisonOps) :
    checkBinary (Expr.binary p ty op x y) = [] := by
  cases op <;> try rfl
  all_goals exact absurd (by decide) hop

theorem scanFrom_shift (ns : List Expr) (acc : List Diagnostic) :
    scanFrom ns acc = acc ++ scanFrom ns [] := by
  induction ns generalizing acc with
  | nil => simp [scanFrom]
  | cons n ns ih =>
    rw [scanFrom, scanFrom, List.nil_append, ih (acc ++ checkBinary n),
      ih (checkBinary n)]
    simp

theorem checkBinary_shape (e : Expr) :
    checkBinary e = [] ∨ ∃ m, checkBinary e = [⟨e.pos, m⟩] := by
  cases e with
  | atom p t => exact Or.inl rfl
  | binary p t op x y =>
    by_cases hop : op ∈ comparisonOps
    · rw [checkBinary_comparison p t op x y hop]
      split_ifs
      · exact Or.inr ⟨_, rfl⟩
      · exact Or.inl rfl
      · exact Or.inl rfl
    · exact Or.inl (checkBinary_not_comparison p t op x y hop)

theorem scanFrom_pos_sublist (ns : List Expr) :
    ((scanFrom ns []).map Diagnostic.pos).Sublist (ns.map Expr.pos) := by
  induction ns with
  | nil => simp [scanFrom]
  | cons n ns ih =>
    rw [scanFrom, List.nil_append, scanFrom_shift, List.map_append, List.map_cons]
    rcases checkBinary_shape n with h | ⟨m, h⟩
    · rw [h]
      simpa using ih.cons n.pos
    · rw [h]
      simpa using ih.cons₂ n.pos

theorem Visit_eq_checkBinary (e : Expr) : Visit e = checkBinary e := rfl

theorem checkBinary_no_report_of_composite (p : Nat) (ty : Option GoType)
    (op : BinOp) (x y : Expr) (px py : GoType)
    (hx : x.typeOf = some (GoType.pointer px))
    (hy : y.typeOf = some (GoType.pointer py))
    (h : classify px = TypeKind.Composite ∨ classify py = TypeKind.Composite) :
    checkBinary (Expr.binary p ty op x y) = [] := by
  by_cases hop : op ∈ comparisonOps
  · rw [checkBinary_comparison p ty op x y hop,
      getUnderlyingType_of_pointer x px hx, getUnderlyingType_of_pointer y py hy]
    rcases h with h | h
    · rw [isBasicType_of_classify_Composite px h]
      simp
    · rw [isBasicType_of_classify_Composite py h]
      simp
  · exact checkBinary_not_comparison p ty op x y hop

theorem scanVisit_eq_scanFrom (ns : List Expr) (acc : List Diagnostic) :
    scanVisit ns acc = scanFrom ns acc := by
  induction ns generalizing acc with
  | nil => rfl
  | cons n ns ih => rw [scanVisit, scanFrom, Visit_eq_checkBinary, ih]

/-- Claim C1: for every binary expression whose operator is one of the six
relational or equality operators and whose two operands both have pointer
static types with Basic-classified pointees, the scan emits exactly one
diagnostic for that expression, positioned at the binary expression's
source position, with message exactly "comparing pointers to basic types:
<left pointee type name> and <right pointee type name>". -/
theorem c1_basic_pointer_pair_reports_once
    (p : Nat) (ty : Option GoType) (op : BinOp) (x y : Expr) (px py : GoType)
    (hop : op ∈ comparisonOps)
    (hx : x.typeOf = some (GoType.pointer px))
    (hy : y.typeOf = some (GoType.pointer py))
    (hbx : classify px = TypeKind.Basic)
    (hby : classify py = TypeKind.Basic) :
    checkBinary (Expr.binary p ty op x y) =
      [{ pos := p,
         message := "comparing pointers to basic types: " ++
           px.typeString ++ " and " ++ py.typeString }] := by
  rw [checkBinary_comparison p ty op x y hop,
    getUnderlyingType_of_pointer x px hx, getUnderlyingType_of_pointer y py hy,
    isPointerType_of_pointer x px hx, isPointerType_of_pointer y py hy,
    isBasicType_of_classify_Basic px hbx, isBasicType_of_classify_Basic py hby]
  rfl

/-- Witness for C1: comparing two variables of type *int with == yields the
single diagnostic at the expression's position naming int and int. -/
theorem c1_basic_pointer_pair_reports_once_witness :
    checkBinary (Expr.binary 5 none BinOp.eql
        (Expr.atom 1 (some (GoType.pointer (GoType.basic "int"))))
        (Expr.atom 2 (some (GoType.pointer (GoType.basic "int"))))) =
      [{ pos := 5,
         message := "comparing pointers to basic types: " ++
           (GoType.basic "int").typeString ++ " and " ++
           (GoType.basic "int").typeString }] :=
  c1_basic_pointer_pair_reports_once 5 none BinOp.eql _ _ _ _
    (by decide) rfl rfl rfl rfl

/-- Claim C2: for every binary comparison expression where at least one
operand's static type is resolved but is not a pointer type, the scan emits
no diagnostic for that expression. -/
theorem c2_nonpointer_operand_no_diagnostic
    (p : Nat) (ty : Option GoType) (op : BinOp) (x y : Expr)
    (h : (∃ t, x.typeOf = some t ∧ ∀ u, t ≠ GoType.pointer u) ∨
         (∃ t, y.typeOf = some t ∧ ∀ u, t ≠ GoType.pointer u)) :
    checkBinary (Expr.binary p ty op x y) = [] := by
  apply checkBinary_of_not_pointer_pair
  rcases h with ⟨t, ht, hnp⟩ | ⟨t, ht, hnp⟩
  · exact Or.inl (isPointerType_false_of_nonpointer x t ht hnp)
  · exact Or.inr (isPointerType_false_of_nonpointer y t ht hnp)

/-- Witness for C2: an int operand compared against a *int operand with ==
yields no diagnostic. -/
theorem c2_nonpointer_operand_no_diagnostic_witness :
    checkBinary (Expr.binary 3 none BinOp.eql
        (Expr.atom 1 (some (GoType.basic "int")))
        (Expr.atom 2 (some (GoType.pointer (GoType.basic "int"))))) = [] :=
  c2_nonpointer_operand_no_diagnostic 3 none BinOp.eql _ _
    (Or.inl ⟨GoType.basic "int", rfl, fun _ h => GoType.noConfusion h⟩)

/-- Claim C3: for every binary comparison whose two operands are both
pointer-typed, if either pointee is classified Composite (struct, array,
slice, map, interface, function, channel, or a further pointer), the scan
emits no diagnostic for that expression. -/
theorem c3_composite_pointee_no_diagnostic
    (p : Nat) (ty : Option GoType) (op : BinOp) (x y : Expr) (px py : GoType)
    (hx : x.typeOf = some (GoType.pointer px))
    (hy : y.typeOf = some (GoType.pointer py))
    (h : classify px = TypeKind.Composite ∨ classify py = TypeKind.Composite) :
    checkBinary (Expr.binary p ty op x y) = [] :=
  checkBinary_no_report_of_composite p ty op x y px py hx hy h

/-- Witness for C3: comparing two pointers to a struct type with == yields
no diagnostic. -/
theorem c3_composite_pointee_no_diagnostic_witness :
    checkBinary (Expr.binary 4 none BinOp.eql
        (Expr.atom 1 (some (GoType.pointer GoType.structT)))
        (Expr.atom 2 (some (GoType.pointer GoType.structT)))) = [] :=
  c3_composite_pointee_no_diagnostic 4 none BinOp.eql _ _ _ _
    rfl rfl (Or.inl rfl)

/-- Claim C4: for every binary comparison between two operands of
pointer-to-pointer type, the pointee (itself a pointer type) is classified
Composite, not Basic, and therefore no diagnostic is emitted. -/
theorem c4_pointer_to_pointer_not_flagged
    (p : Nat) (ty : Option GoType) (op : BinOp) (x y : Expr) (t u : GoType)
    (hx : x.typeOf = some (GoType.pointer (GoType.pointer t)))
    (hy : y.typeOf = some (GoType.pointer (GoType.pointer u))) :
    classify (GoType.pointer t) = TypeKind.Composite ∧
    classify (GoType.pointer u) = TypeKind.Composite ∧
    checkBinary (Expr.binary p ty op x y) = [] :=
  ⟨rfl, rfl,
    checkBinary_no_report_of_composite p ty op x y _ _ hx hy (Or.inl rfl)⟩

/-- Witness for C4: comparing two values of type **int with != yields no
diagnostic, the **int pointee *int being Composite. -/
theorem c4_pointer_to_pointer_not_flagged_witness :
    classify (GoType.pointer (GoType.basic "int")) = TypeKind.Composite ∧
    classify (GoType.pointer (GoType.basic "int")) = TypeKind.Composite ∧
    checkBinary (Expr.binary 9 none BinOp.neq
        (Expr.atom 1 (some (GoType.pointer (GoType.pointer (GoType.basic "int")))))
        (Expr.atom 2 (some (GoType.pointer (GoType.pointer (GoType.basic "int")))))) =
      [] :=
  c4_pointer_to_pointer_not_flagged 9 none BinOp.neq _ _ _ _ rfl rfl

/-- Claim C5: for every binary comparison between two pointers whose
pointees are named (defined) types whose underlying representation is a
primitive scalar, each pointee is classified Basic (classification resolves
the named type to its underlying representation) and a diagnostic is
emitted, naming the pointee types by their names. -/
theorem c5_named_scalar_pointee_reports
    (p : Nat) (ty : Option GoType) (op : BinOp) (x y : Expr)
    (nx ny : String) (ux uy : GoType) (sx sy : String)
    (hop : op ∈ comparisonOps)
    (hx : x.typeOf = some (GoType.pointer (GoType.named nx ux)))
    (hy : y.typeOf = some (GoType.pointer (GoType.named ny uy)))
    (hux : ux.underlying = GoType.basic sx)
    (huy : uy.underlying = GoType.basic sy) :
    classify (GoType.named nx ux) = TypeKind.Basic ∧
    classify (GoType.named ny uy) = TypeKind.Basic ∧
    checkBinary (Expr.binary p ty op x y) =
      [{ pos := p,
         message := "comparing pointers to basic types: " ++
           nx ++ " and " ++ ny }] := by
  have cx : classify (GoType.named nx ux) = TypeKind.Basic := by
    simp only [classify, GoType.underlying, hux]
  have cy : classify (GoType.named ny uy) = TypeKind.Basic := by
    simp only [classify, GoType.underlying, huy]
  refine ⟨cx, cy, ?_⟩
  rw [checkBinary_comparison p ty op x y hop,
    getUnderlyingType_of_pointer x _ hx, getUnderlyingType_of_pointer y _ hy,
    isPointerType_of_pointer x _ hx, isPointerType_of_pointer y _ hy,
    isBasicType_of_classify_Basic _ cx, isBasicType_of_classify_Basic _ cy]
  rfl

/-- Witness for C5: comparing two pointers to a named integer type main.Age
(underlying int) with < yields one diagnostic naming main.Age twice. -/
theorem c5_named_scalar_pointee_reports_witness :
    classify (GoType.named "main.Age" (GoType.basic "int")) = TypeKind.Basic ∧
    classify (GoType.named "main.Age" (GoType.basic "int")) = TypeKind.Basic ∧
    checkBinary (Expr.binary 8 none BinOp.lss
        (Expr.atom 1 (some (GoType.pointer
          (GoType.named "main.Age" (GoType.basic "int")))))
        (Expr.atom 2 (some (GoType.pointer
          (GoType.named "main.Age" (GoType.basic "int")))))) =
      [{ pos := 8,
         message := "comparing pointers to basic types: " ++
           "main.Age" ++ " and " ++ "main.Age" }] :=
  c5_named_scalar_pointee_reports 8 none BinOp.lss _ _ _ _ _ _ _ _
    (by decide) rfl rfl rfl rfl

/-- Claim C6: each of the six comparison operators is independently capable
of triggering a diagnostic on a basic-pointee pointer pair, and no binary
expression with any other operator ever produces a diagnostic. -/
theorem c6_operator_coverage
    (o op : BinOp) (q : Nat) (tz : Option GoType) (x y : Expr)
    (ho : o ∈ comparisonOps) (hop : op ∉ comparisonOps) :
    checkBinary (Expr.binary 0 none o
        (Expr.atom 1 (some (GoType.pointer (GoType.basic "int"))))
        (Expr.atom 2 (some (GoType.pointer (GoType.basic "int"))))) =
      [{ pos := 0,
         message := "comparing pointers to basic types: int and int" }] ∧
    checkBinary (Expr.binary q tz op x y) = [] := by
  constructor
  · rw [checkBinary_comparison _ _ _ _ _ ho]
    decide
  · exact checkBinary_not_comparison q tz op x y hop

/-- Witness for C6: the operator <= triggers the diagnostic on a *int pair
while the arithmetic operator + never reports. -/
theorem c6_operator_coverage_witness :
    checkBinary (Expr.binary 0 none BinOp.leq
        (Expr.atom 1 (some (GoType.pointer (GoType.basic "int"))))
        (Expr.atom 2 (some (GoType.pointer (GoType.basic "int"))))) =
      [{ pos := 0,
         message := "comparing pointers to basic types: int and int" }] ∧
    checkBinary (Expr.binary 7 none BinOp.add
        (Expr.atom 1 (some (GoType.pointer (GoType.basic "int"))))
        (Expr.atom 2 (some (GoType.pointer (GoType.basic "int"))))) = [] :=
  c6_operator_coverage BinOp.leq BinOp.add 7 none _ _ (by decide) (by decide)

/-- Claim C7: the analyzer's run never returns an error, and an operand
whose static type cannot be resolved is treated as not-a-pointer,
suppressing the diagnostic for that expression: an unresolved operand type
never triggers a diagnostic. -/
theorem c7_no_error_unresolved_no_diagnostic
    (unit : List Expr) (p : Nat) (ty : Option GoType) (op : BinOp) (x y : Expr)
    (h : x.typeOf = none ∨ y.typeOf = none) :
    (run unit).2 = none ∧ checkBinary (Expr.binary p ty op x y) = [] := by
  refine ⟨rfl, ?_⟩
  apply checkBinary_of_not_pointer_pair
  rcases h with h | h
  · exact Or.inl (by simp [isPointerType, h])
  · exact Or.inr (by simp [isPointerType, h])

/-- Witness for C7: on a one-expression unit, run reports a nil error, and
a comparison whose left operand has no resolved type yields no diagnostic
even when the right operand is a pointer to a basic type. -/
theorem c7_no_error_unresolved_no_diagnostic_witness :
    (run [Expr.atom 1 none]).2 = none ∧
    checkBinary (Expr.binary 2 none BinOp.eql
        (Expr.atom 3 none)
        (Expr.atom 4 (some (GoType.pointer (GoType.basic "int"))))) = [] :=
  c7_no_error_unresolved_no_diagnostic [Expr.atom 1 none] 2 none BinOp.eql _ _
    (Or.inl rfl)

/-- Claim C8: when the binary-expression nodes of the unit appear at
strictly increasing source positions along the preorder walk, the emitted
diagnostics are positioned in that same strictly increasing (lexical)
order; moreover the diagnostics list only grows during a scan: scanning
from any already-accumulated list yields that list extended by the scan's
own diagnostics, never a shrunk or rewritten list. -/
theorem c8_ordering_and_append_only
    (unit : List Expr) (acc : List Diagnostic)
    (hsorted : List.Pairwise (· < ·) ((collectBinaries unit).map Expr.pos)) :
    List.Pairwise (· < ·) ((run unit).1.map Diagnostic.pos) ∧
    scanFrom (collectBinaries unit) acc = acc ++ (run unit).1 := by
  constructor
  · exact List.Pairwise.sublist (scanFrom_pos_sublist (collectBinaries unit))
      hsorted
  · exact scanFrom_shift (collectBinaries unit) acc

/-- Witness for C8: a unit with two qualifying comparisons at positions 1
and 10 yields diagnostics at strictly increasing positions, and scanning on
top of a one-element accumulator appends to it. -/
theorem c8_ordering_and_append_only_witness :
    List.Pairwise (· < ·)
      ((run [Expr.binary 1 none BinOp.eql
          (Expr.atom 2 (some (GoType.pointer (GoType.basic "int"))))
          (Expr.atom 3 (some (GoType.pointer (GoType.basic "int")))),
        Expr.binary 10 none BinOp.neq
          (Expr.atom 11 (some (GoType.pointer (GoType.basic "string"))))
          (Expr.atom 12 (some (GoType.pointer (GoType.basic "string"))))]).1.map
        Diagnostic.pos) ∧
    scanFrom (collectBinaries
        [Expr.binary 1 none BinOp.eql
          (Expr.atom 2 (some (GoType.pointer (GoType.basic "int"))))
          (Expr.atom 3 (some (GoType.pointer (GoType.basic "int")))),
        Expr.binary 10 none BinOp.neq
          (Expr.atom 11 (some (GoType.pointer (GoType.basic "string"))))
          (Expr.atom 12 (some (GoType.pointer (GoType.basic "string"))))])
        [{ pos := 0, message := "prior" }] =
      [{ pos := 0, message := "prior" }] ++
        (run [Expr.binary 1 none BinOp.eql
          (Expr.atom 2 (some (GoType.pointer (GoType.basic "int"))))
          (Expr.atom 3 (some (GoType.pointer (GoType.basic "int")))),
        Expr.binary 10 none BinOp.neq
          (Expr.atom 11 (some (GoType.pointer (GoType.basic "string"))))
          (Expr.atom 12 (some (GoType.pointer (GoType.basic "string"))))]).1 :=
  c8_ordering_and_append_only _ _ (by decide)

/-- Claim C9: an operand whose static type is a named (defined) type whose
underlying type is a pointer is not recognised by isPointerType (the
pointer test is a direct nominal type assertion, not a check of the
underlying type), so a comparison of two such operands is never flagged. -/
theorem c9_named_pointer_type_not_flagged
    (p : Nat) (ty : Option GoType) (op : BinOp) (x y : Expr)
    (nx ny : String) (ex ey : GoType)
    (hx : x.typeOf = some (GoType.named nx (GoType.pointer ex)))
    (hy : y.typeOf = some (GoType.named ny (GoType.pointer ey))) :
    isPointerType x = false ∧ isPointerType y = false ∧
    checkBinary (Expr.binary p ty op x y) = [] := by
  have hfx : isPointerType x = false := by simp [isPointerType, hx]
  have hfy : isPointerType y = false := by simp [isPointerType, hy]
  exact ⟨hfx, hfy,
    checkBinary_of_not_pointer_pair p ty op x y (Or.inl hfx)⟩

/-- Witness for C9: operands of a named pointer type main.IntPtr (defined
as *int) are not treated as pointers and their comparison is not flagged
even though the eventual referent int is basic. -/
theorem c9_named_pointer_type_not_flagged_witness :
    isPointerType (Expr.atom 1 (some (GoType.named "main.IntPtr"
      (GoType.pointer (GoType.basic "int"))))) = false ∧
    isPointerType (Expr.atom 2 (some (GoType.named "main.IntPtr"
      (GoType.pointer (GoType.basic "int"))))) = false ∧
    checkBinary (Expr.binary 6 none BinOp.eql
        (Expr.atom 1 (some (GoType.named "main.IntPtr"
          (GoType.pointer (GoType.basic "int")))))
        (Expr.atom 2 (some (GoType.named "main.IntPtr"
          (GoType.pointer (GoType.basic "int")))))) = [] :=
  c9_named_pointer_type_not_flagged 6 none BinOp.eql _ _ _ _ _ _ rfl rfl

/-- Claim C10: on every input compilation unit with type information, the
variant analyzer pipeline of src/unnamed/part_001 (run dispatching each
preorder node to Visit with isBasicType2) produces exactly the same
diagnostics — same positions, same messages, same order — and the same nil
error as the run function of src/main.go. -/
theorem c10_variant_pipeline_equivalent (unit : List Expr) :
    runVariant unit = run unit := by
  unfold runVariant run
  rw [scanVisit_eq_scanFrom]

end Ptrcmp
